import Mathlib

/-!
# Verification of the TestFlight status notifier

Shallow embedding of `src/__init__.py` (module `TestFlightNotifier`).

The module polls TestFlight join pages, diffs the fetched "beta is full"
status against a sqlite-backed store, and notifies on changes.  External
effects (HTTP responses, notification-channel resolution and delivery)
are oracled by explicit environment values; Python exceptions are
modelled by the `PyExn` error component of the results.
-/

set_option autoImplicit false

deriving instance DecidableEq for Except

/-- Python exceptions that the relevant code paths can raise. -/
inductive PyExn where
  /-- `AttributeError` from calling a method on `None` (missing element). -/
  | attributeError
  /-- `TypeError` from subscripting `None` (missing icon element). -/
  | typeError
  /-- `KeyError` from a missing `style` attribute. -/
  | keyError
  /-- `IndexError` from an out-of-range list index. -/
  | indexError
  /-- aiohttp transport-level error raised by `session.get`. -/
  | transportError
  /-- discord HTTP error raised by `fetch_channel` or `channel.send`. -/
  | httpError
deriving DecidableEq, Repr

/-- `TestFlightApp` dataclass from the source. -/
structure TestFlightApp where
  is_full : Bool
  id : String
  name : String
  icon_url : String
deriving DecidableEq, Repr

/-! ## Character-list helpers mirroring the Python string operations -/

/-- `p` is a leading chunk of `l` (mirrors Python `str.startswith`). -/
def isPre : List Char → List Char → Bool
  | [], _ => true
  | _ :: _, [] => false
  | a :: as, b :: bs => a == b && isPre as bs

/-- The remainder of `l` after the first occurrence of `sep`
(`s.split(sep, 1)[1]` in Python); `none` when `sep` does not occur. -/
def afterFirst (sep : List Char) : List Char → Option (List Char)
  | [] => if sep.isEmpty then some [] else none
  | c :: rest =>
    if isPre sep (c :: rest) then some (List.drop sep.length (c :: rest))
    else afterFirst sep rest

/-- The part of `l` before the first occurrence of `sep`
(`s.split(sep)[0]` in Python); all of `l` when `sep` does not occur. -/
def beforeFirst (sep : List Char) : List Char → List Char
  | [] => []
  | c :: rest =>
    if isPre sep (c :: rest) then [] else c :: beforeFirst sep rest

/-- Python's `sub in s` substring test. -/
def containsSub (sep l : List Char) : Bool :=
  (afterFirst sep l).isSome

/-- Python's `str.lower` (ASCII suffices for the phrases involved). -/
def lowerList (l : List Char) : List Char :=
  l.map Char.toLower

/-- Python's `str.removeprefix`: drop `p` from the front when present. -/
def stripPre (p l : List Char) : List Char :=
  if isPre p l then l.drop p.length else l

/-- Python's `str.removesuffix`: drop `p` from the end when present. -/
def stripSuf (p l : List Char) : List Char :=
  (stripPre p.reverse l.reverse).reverse

/-- `s.split(sep, maxsplit)` for a one-character separator: accumulator
`acc` holds the current token reversed; once the split budget is spent
the rest of the input stays in the current token. -/
def pySplitCharAux (sep : Char) : Nat → List Char → List Char → List (List Char)
  | _, [], acc => [acc.reverse]
  | 0, rest, acc => [acc.reverse ++ rest]
  | Nat.succ m, c :: rest, acc =>
    if c == sep then acc.reverse :: pySplitCharAux sep m rest []
    else pySplitCharAux sep (Nat.succ m) rest (c :: acc)

/-- Python `s.split(sep, maxsplit)` with a one-character separator. -/
def pySplitChar (sep : Char) (maxsplit : Nat) (s : String) : List String :=
  (pySplitCharAux sep maxsplit s.toList []).map String.mk

/-! ## Source client: `fetch_app_info` -/

/-- The pieces of a fetched join page that the scraper looks up.
`none` marks a missing element/attribute (BeautifulSoup `find`
returning `None`, or a missing dictionary key). -/
structure Page where
  /-- Text of `soup.find("div", id="status").find("span")`; `none` when
  the status div or its span is absent. -/
  statusSpanText : Option String
  /-- Icon element inside the status div: `none` when the element is
  absent, `some none` when it lacks a `style` attribute, and
  `some (some style)` otherwise. -/
  iconElem : Option (Option String)
  /-- Text of `soup.find("head").find("title")`; `none` when absent. -/
  title : Option String
deriving DecidableEq, Repr

/-- Outcome of the single `session.get` of one `fetch_app_info` call. -/
inductive FetchOutcome where
  /-- The transport raised (connection error, timeout, ...). -/
  | transportError
  /-- An HTTP response with the given status code and page body. -/
  | response (status : Nat) (page : Page)
deriving DecidableEq, Repr

/-- The parsing half of `fetch_app_info` (everything after the 200
check): status text, icon URL and display name extraction.  Each
missing piece raises the corresponding Python exception. -/
def parse_page (app_id : String) (page : Page) : Except PyExn TestFlightApp :=
  match page.statusSpanText with
  | none => .error .attributeError
  | some txt =>
    let full := containsSub "is full".toList (lowerList txt.toList)
    match page.iconElem with
    | none => .error .typeError
    | some none => .error .keyError
    | some (some style) =>
      match afterFirst "url(".toList style.toList with
      | none => .error .indexError
      | some afterUrl =>
        let icon_url := String.mk (beforeFirst [')'] afterUrl)
        match page.title with
        | none => .error .attributeError
        | some t =>
          let name :=
            String.mk (stripSuf " - TestFlight - Apple".toList
              (stripPre "Join the ".toList t.toList))
          .ok { is_full := full, id := app_id, name := name, icon_url := icon_url }

/-- `fetch_app_info`: a transport error propagates as an exception, a
non-200 response returns `None`, and otherwise the page is parsed
(which may itself raise). -/
def fetch_app_info (out : FetchOutcome) (app_id : String) :
    Except PyExn (Option TestFlightApp) :=
  match out with
  | .transportError => .error .transportError
  | .response status page =>
    if status ≠ 200 then .ok none
    else
      match parse_page app_id page with
      | .error e => .error e
      | .ok app => .ok (some app)

/-! ## Status store: the sqlite `state` table -/

/-- Rows of the `state` table: `app_id` (primary key) and `is_full`. -/
abbrev Store := List (String × Bool)

/-- `was_full`: `SELECT is_full FROM state WHERE app_id = ?`, giving
`none` when no row exists. -/
def was_full (store : Store) (app_id : String) : Option Bool :=
  (store.find? (fun r => r.1 == app_id)).map (fun r => r.2)

/-- `store_app_info`: `INSERT OR REPLACE INTO state` — the conflicting
row (same primary key) is replaced. -/
def store_app_info (store : Store) (info : TestFlightApp) : Store :=
  (info.id, info.is_full) :: store.filter (fun r => r.1 != info.id)

/-- Python's `!=` between a `bool` and a `bool | None` value: `b != None`
is `True`, otherwise ordinary boolean disequality.  This is exactly the
comparison `app_info.is_full != self.was_full(app_id)` in the source. -/
def pyNe (b : Bool) (o : Option Bool) : Bool :=
  match o with
  | none => true
  | some c => b != c

/-! ## Notification sink: `send_info` / `send_error` -/

/-- Oracle for one notification attempt: how the channel resolution and
the send behave. -/
inductive SendOutcome where
  /-- Channel resolution produced `None`: the method logs
  "Notification channel not found" and returns. -/
  | channelNone
  /-- The message was delivered. -/
  | delivered
  /-- `fetch_channel` or `channel.send` raised. -/
  | raised
deriving DecidableEq, Repr

/-- `send_info`: resolve the channel (may raise), return after logging
when it is `None`, otherwise send the embed (may raise). -/
def send_info (ch : SendOutcome) (_info : TestFlightApp) : Except PyExn Unit :=
  match ch with
  | .channelNone => .ok ()
  | .delivered => .ok ()
  | .raised => .error .httpError

/-- `send_error`: same channel resolution and send structure as
`send_info`, with a plain-text message. -/
def send_error (ch : SendOutcome) (_app_id : String) : Except PyExn Unit :=
  match ch with
  | .channelNone => .ok ()
  | .delivered => .ok ()
  | .raised => .error .httpError

/-! ## Polling engine: `loop_callback` -/

/-- Observable engine actions during a cycle, in program order.
Notification events are recorded at the call to the send method
(whether or not delivery then succeeds). -/
inductive Event where
  /-- `send_error(app_id)` was called. -/
  | notifyError (id : String)
  /-- `send_info(app_info)` was called. -/
  | notifyChange (app : TestFlightApp)
  /-- `store_app_info` wrote `(id, isFull)`. -/
  | put (id : String) (isFull : Bool)
deriving DecidableEq, Repr

/-- Environment for the processing of one watched id in one cycle. -/
structure ItemEnv where
  fetch : FetchOutcome
  errSend : SendOutcome
  infoSend : SendOutcome
deriving DecidableEq, Repr

/-- One iteration of the `for app_id in watched_apps` body: returns the
store after the iteration, the events it produced, and `some e` when an
uncaught exception `e` aborted it. -/
def processItem (fresh_start send_errors : Bool) (store : Store)
    (app_id : String) (env : ItemEnv) : Store × List Event × Option PyExn :=
  match fetch_app_info env.fetch app_id with
  | .error e => (store, [], some e)
  | .ok none =>
    if send_errors then
      match send_error env.errSend app_id with
      | .error e => (store, [Event.notifyError app_id], some e)
      | .ok _ => (store, [Event.notifyError app_id], none)
    else (store, [], none)
  | .ok (some info) =>
    if !fresh_start && pyNe info.is_full (was_full store app_id) then
      match send_info env.infoSend info with
      | .error e => (store, [Event.notifyChange info], some e)
      | .ok _ =>
        (store_app_info store info,
         [Event.notifyChange info, Event.put info.id info.is_full], none)
    else
      (store_app_info store info, [Event.put info.id info.is_full], none)

/-- The `for` loop of `loop_callback` over the (id, environment) pairs:
an exception in one iteration propagates and the remaining ids are not
processed. -/
def runItems (fresh_start send_errors : Bool) :
    List (String × ItemEnv) → Store → Store × List Event × Option PyExn
  | [], store => (store, [], none)
  | (app_id, env) :: rest, store =>
    match processItem fresh_start send_errors store app_id env with
    | (s, evs, some e) => (s, evs, some e)
    | (s, evs, none) =>
      match runItems fresh_start send_errors rest s with
      | (s2, evs2, exn) => (s2, evs ++ evs2, exn)

/-- Cog state relevant to the claims: the `fresh_start` field set in
`__init__`, the `watched_apps` setting, and the sqlite store. -/
structure ModuleState where
  fresh_start : Bool
  watched : List String
  store : Store
deriving DecidableEq, Repr

/-- `loop_callback`: iterate the watched ids against the store.  The
method reads `self.fresh_start` but contains no assignment to it, so
the flag in the resulting state is the incoming one unchanged. -/
def loop_callback (send_errors : Bool) (envOf : String → ItemEnv)
    (st : ModuleState) : ModuleState × List Event × Option PyExn :=
  match runItems st.fresh_start send_errors
      (st.watched.map (fun i => (i, envOf i))) st.store with
  | (s, evs, exn) => ({ st with store := s }, evs, exn)

/-! ## Store initialization: `create_cache` and `__init__` -/

/-- The sqlite database file: the names in `sqlite_master` and the rows
of the `state` table (meaningful once that table exists). -/
structure DbState where
  tables : List String
  state_rows : Store
deriving DecidableEq, Repr

/-- `create_cache`: query `sqlite_master` for the `state` table, create
it if absent (`CREATE TABLE IF NOT EXISTS`), and return whether it was
absent before the call (`existed_before is None`). -/
def create_cache (db : DbState) : Bool × DbState :=
  let existed_before := db.tables.contains "state"
  let db' :=
    if db.tables.contains "state" then db
    else { tables := "state" :: db.tables, state_rows := ([] : List (String × Bool)) }
  (!existed_before, db')

/-- `__init__`: `self.fresh_start = self.create_cache(self.db_connection)`,
with the watched list coming from settings. -/
def initModule (db : DbState) (watched : List String) : ModuleState :=
  { fresh_start := (create_cache db).1
  , watched := watched
  , store := (create_cache db).2.state_rows }

/-! ## The `add_testflight` command -/

/-- Replies `ctx.send` can produce in `add_testflight`. -/
inductive AddReply where
  | invalidUrl
  | alreadyWatched
  | notFound
  | watching (name : String)
deriving DecidableEq, Repr

/-- State-changing actions of `add_testflight`, in program order. -/
inductive AddEvent where
  /-- `store_app_info` wrote `(id, isFull)`. -/
  | put (id : String) (isFull : Bool)
  /-- `setting.value.append(app_id)` ran. -/
  | append (id : String)
deriving DecidableEq, Repr

/-- Outcome of the URL-or-id argument handling at the top of
`add_testflight` (and `remove_testflight`). -/
inductive IdParse where
  | ok (app_id : String)
  | invalidUrl
  /-- `parts[4]` raised `IndexError` (exactly four split parts). -/
  | indexError
deriving DecidableEq, Repr

/-- The argument handling: URLs are split as `app_id.split("/", 4)`;
`parts[2]` must be `testflight.apple.com` and `parts[3]` must be
`join`, and the id is `parts[4]`.  Non-URL input is used as the id. -/
def parse_app_id_arg (raw : String) : IdParse :=
  if isPre "https://".toList raw.toList || isPre "http://".toList raw.toList then
    let parts := pySplitChar '/' 4 raw
    if parts.length < 4 || !(parts.getD 2 "" == "testflight.apple.com")
        || !(parts.getD 3 "" == "join") then
      IdParse.invalidUrl
    else
      match parts.drop 4 with
      | [] => IdParse.indexError
      | x :: _ => IdParse.ok x
  else IdParse.ok raw

/-- Result of one `add_testflight` invocation. -/
structure AddOutcome where
  state : ModuleState
  events : List AddEvent
  /-- The reply sent to the invoker; `none` when an exception aborted
  the command before any reply. -/
  reply : Option AddReply
  exn : Option PyExn
deriving DecidableEq, Repr

/-- `add_testflight`: parse the argument, reject duplicates, validate
by one fetch, then `store_app_info(info)` followed by appending to the
watched list. -/
def add_testflight (st : ModuleState) (raw : String) (fetchOut : FetchOutcome) :
    AddOutcome :=
  match parse_app_id_arg raw with
  | .invalidUrl => ⟨st, [], some .invalidUrl, none⟩
  | .indexError => ⟨st, [], none, some .indexError⟩
  | .ok app_id =>
    if st.watched.contains app_id then ⟨st, [], some .alreadyWatched, none⟩
    else
      match fetch_app_info fetchOut app_id with
      | .error e => ⟨st, [], none, some e⟩
      | .ok none => ⟨st, [], some .notFound, none⟩
      | .ok (some info) =>
        ⟨{ st with store := store_app_info st.store info
                 , watched := st.watched ++ [app_id] }
        , [AddEvent.put info.id info.is_full, AddEvent.append app_id]
        , some (.watching info.name), none⟩

/-! ## Concrete fixtures -/

/-- A well-formed join page whose status text says the beta is full. -/
def pageFull : Page :=
  { statusSpanText := some "This beta is full."
  , iconElem := some (some "background-image: url(https://is1-ssl.mzstatic.com/icon.png); width: 60px")
  , title := some "Join the CoolApp beta - TestFlight - Apple" }

/-- The same page with a status text that does not say "is full". -/
def pageNotFull : Page :=
  { pageFull with statusSpanText := some "This beta is accepting new testers." }

/-- `pageFull` with the status div/span missing. -/
def pageNoStatus : Page :=
  { pageFull with statusSpanText := none }

/-- The record `fetch_app_info` parses out of `pageFull` / `pageNotFull`
for app id `A`. -/
def appA (b : Bool) : TestFlightApp :=
  { is_full := b, id := "A", name := "CoolApp beta"
  , icon_url := "https://is1-ssl.mzstatic.com/icon.png" }

/-- Fetch succeeds with `pageFull`; notifications deliver. -/
def envFull : ItemEnv := ⟨.response 200 pageFull, .delivered, .delivered⟩

/-- Fetch succeeds with `pageNotFull`; notifications deliver. -/
def envNotFull : ItemEnv := ⟨.response 200 pageNotFull, .delivered, .delivered⟩

/-- Fetch succeeds with `pageFull`; the change notification raises. -/
def envSendRaise : ItemEnv := ⟨.response 200 pageFull, .delivered, .raised⟩

/-- Fetch yields a 200 response whose markup lacks the status element. -/
def envBadPage : ItemEnv := ⟨.response 200 pageNoStatus, .delivered, .delivered⟩

/-- Every id fetches `pageFull`. -/
def envFullF : String → ItemEnv := fun _ => envFull

/-- Every id fetches `pageNotFull`. -/
def envNotFullF : String → ItemEnv := fun _ => envNotFull

/-- A database file with no tables at all. -/
def dbEmpty : DbState := { tables := [], state_rows := [] }

/-! ## Helper lemmas -/

theorem pyNe_eq_true_iff (b : Bool) (o : Option Bool) :
    pyNe b o = true ↔ ¬ o = some b := by
  cases o with
  | none => simp [pyNe]
  | some c => simpa [pyNe, bne_iff_ne] using ne_comm

theorem parse_page_ok_shape (a : String) (p : Page) (i : TestFlightApp)
    (h : parse_page a p = .ok i) :
    (∃ t, p.statusSpanText = some t) ∧
    (∃ s, p.iconElem = some (some s) ∧ (afterFirst "url(".toList s.toList).isSome) ∧
    (∃ t, p.title = some t) := by
  unfold parse_page at h
  repeat' split at h
  all_goals simp_all

theorem parse_page_id (a : String) (p : Page) (i : TestFlightApp)
    (h : parse_page a p = .ok i) : i.id = a := by
  unfold parse_page at h
  repeat' split at h
  all_goals simp_all
  subst h
  rfl

theorem fetch_app_info_id (out : FetchOutcome) (a : String) (i : TestFlightApp)
    (h : fetch_app_info out a = .ok (some i)) : i.id = a := by
  cases out with
  | transportError => simp [fetch_app_info] at h
  | response status page =>
    simp only [fetch_app_info] at h
    split at h
    · simp at h
    · cases hp : parse_page a page with
      | error e => rw [hp] at h; simp at h
      | ok app =>
        rw [hp] at h
        simp only [Except.ok.injEq, Option.some.injEq] at h
        subst h
        exact parse_page_id a page app hp

theorem was_full_store_app_info (store : Store) (info : TestFlightApp) :
    was_full (store_app_info store info) info.id = some info.is_full := by
  simp [was_full, store_app_info, List.find?]

/-! ## Claim C1 -/

/-- C1: the claim says that after the first polling cycle completes, no
later cycle runs with `fresh_start` true.  The code never assigns
`fresh_start` after `__init__`, so on a fresh database (table absent,
flag true) the first cycle completes successfully and the second cycle
still runs with the flag true: it suppresses a genuine full→not-full
transition for `A` (old status present and different), emitting only the
store write. -/
theorem C1_fresh_start_persists :
    (loop_callback true envFullF (initModule dbEmpty ["A"])).2.2 = none ∧
    (loop_callback true envFullF (initModule dbEmpty ["A"])).1.fresh_start = true ∧
    (loop_callback true envNotFullF
        (loop_callback true envFullF (initModule dbEmpty ["A"])).1).1.fresh_start = true ∧
    (loop_callback true envNotFullF
        (loop_callback true envFullF (initModule dbEmpty ["A"])).1).2.1 =
      [Event.put "A" false] := by decide

/-! ## Claim C2 -/

/-- C2: counterexample to "when no old status exists for the id, no
change notification fires".  With `fresh_start` false, an empty store
(no previous status for `A`) and a successful fetch, the cycle body
does call `send_info`: in Python `app_info.is_full != self.was_full(app_id)`
is `bool != None`, which is `True`. -/
theorem C2_counterexample :
    was_full [] "A" = none ∧
    (processItem false false [] "A" envFull).2.1 =
      [Event.notifyChange (appA true), Event.put "A" true] := by decide

/-- C2 (amended): for an item whose fetch succeeds, a change
notification is issued iff `fresh_start` is false and the stored status
is not `some` of the new value — a missing old status counts as a
difference, so the notification also fires when no old status exists. -/
theorem C2_notify_iff (fresh send_errors : Bool) (store : Store) (app_id : String)
    (env : ItemEnv) (info : TestFlightApp)
    (hfetch : fetch_app_info env.fetch app_id = .ok (some info)) :
    Event.notifyChange info ∈ (processItem fresh send_errors store app_id env).2.1 ↔
      (fresh = false ∧ ¬ was_full store app_id = some info.is_full) := by
  simp only [processItem, hfetch]
  by_cases hc : (!fresh && pyNe info.is_full (was_full store app_id)) = true
  · rw [if_pos hc]
    simp only [Bool.and_eq_true, Bool.not_eq_true'] at hc
    obtain ⟨hf, hp⟩ := hc
    rw [pyNe_eq_true_iff] at hp
    cases henv : env.infoSend <;> simp [send_info, hf, hp]
  · rw [if_neg hc]
    simp only [List.mem_singleton, false_iff]
    constructor
    · intro h; simp at h
    · rintro ⟨hf, hp⟩
      exact (hc (by simp [hf, pyNe_eq_true_iff, hp])).elim

/-- Witness for C2's amended theorem at a concrete input. -/
theorem C2_notify_iff_witness :
    Event.notifyChange (appA true) ∈ (processItem false false [] "A" envFull).2.1 ↔
      (false = false ∧ ¬ was_full [] "A" = some (appA true).is_full) :=
  C2_notify_iff false false [] "A" envFull (appA true) (by decide)

/-! ## Claim C7 -/

/-- C7: when the fetch succeeds and the stored status equals the newly
fetched `is_full`, no change notification is issued, the iteration does
not raise, and the store write still happens (`store_app_info`
executes). -/
theorem C7_equal_status_still_put (fresh send_errors : Bool) (store : Store)
    (app_id : String) (env : ItemEnv) (info : TestFlightApp)
    (hfetch : fetch_app_info env.fetch app_id = .ok (some info))
    (hold : was_full store app_id = some info.is_full) :
    processItem fresh send_errors store app_id env =
      (store_app_info store info, [Event.put info.id info.is_full], none) := by
  simp [processItem, hfetch, hold, pyNe]

/-- Witness for C7 at a concrete input. -/
theorem C7_equal_status_still_put_witness :
    processItem false true [("A", true)] "A" envFull =
      (store_app_info [("A", true)] (appA true),
       [Event.put (appA true).id (appA true).is_full], none) :=
  C7_equal_status_still_put false true [("A", true)] "A" envFull (appA true)
    (by decide) (by decide)

/-! ## Claim C8 -/

/-- C8: `create_cache` returns true iff the `state` table did not exist
before the call, ensures the table exists afterwards, leaves the
database untouched when the table already existed, and its return value
is exactly what `__init__` stores in `fresh_start`. -/
theorem C8_create_cache_spec (db : DbState) (w : List String) :
    ((create_cache db).1 = true ↔ ¬ "state" ∈ db.tables) ∧
    "state" ∈ (create_cache db).2.tables ∧
    ("state" ∈ db.tables → create_cache db = (false, db)) ∧
    (initModule db w).fresh_start = (create_cache db).1 := by
  refine ⟨?_, ?_, ?_, rfl⟩ <;>
    by_cases h : "state" ∈ db.tables <;> simp [create_cache, h]

/-- Witness for C8 at concrete inputs. -/
theorem C8_create_cache_spec_witness :
    create_cache ⟨["state"], [("A", true)]⟩ = (false, ⟨["state"], [("A", true)]⟩) :=
  (C8_create_cache_spec ⟨["state"], [("A", true)]⟩ []).2.2.1 (by decide)

/-! ## Claim C3 -/

/-- C3: counterexample to "a missing expected element yields a
FetchError result rather than an exception that terminates the cycle".
On a 200 response whose status element is missing, `fetch_app_info`
raises `AttributeError` (calling `find` on `None`), and in a cycle the
exception propagates: the cycle aborts and the second watched id is
never processed. -/
theorem C3_counterexample :
    fetch_app_info (.response 200 pageNoStatus) "A" = .error .attributeError ∧
    runItems false true [("A", envBadPage), ("B", envFull)] [] =
      ([], [], some PyExn.attributeError) := by decide

/-- C3 (amended): on a 200 response, a missing status span, icon
element, `style` attribute, `url(` token, or title makes
`fetch_app_info` raise an exception; it never produces the `None`
FetchError result in those cases (that result arises only from non-200
responses). -/
theorem C3_missing_markup_raises (page : Page) (app_id : String)
    (h : page.statusSpanText = none ∨ page.iconElem = none ∨ page.iconElem = some none ∨
         (∃ s, page.iconElem = some (some s) ∧ afterFirst "url(".toList s.toList = none) ∨
         page.title = none) :
    (∃ e, fetch_app_info (FetchOutcome.response 200 page) app_id = Except.error e) ∧
    ¬ fetch_app_info (FetchOutcome.response 200 page) app_id = Except.ok none := by
  have hp : ∃ e, parse_page app_id page = .error e := by
    cases hpp : parse_page app_id page with
    | error e => exact ⟨e, rfl⟩
    | ok i =>
      exfalso
      obtain ⟨⟨t, ht⟩, ⟨s, hs, hu⟩, ⟨tt, htt⟩⟩ := parse_page_ok_shape app_id page i hpp
      rcases h with h | h | h | ⟨s2, hs2, hu2⟩ | h <;> simp_all
  obtain ⟨e, he⟩ := hp
  have hf : fetch_app_info (FetchOutcome.response 200 page) app_id = Except.error e := by
    simp [fetch_app_info, he]
  exact ⟨⟨e, hf⟩, by rw [hf]; simp⟩

/-- Witness for C3's amended theorem at a concrete input. -/
theorem C3_missing_markup_raises_witness :
    (∃ e, fetch_app_info (FetchOutcome.response 200 pageNoStatus) "A" = Except.error e) ∧
    ¬ fetch_app_info (FetchOutcome.response 200 pageNoStatus) "A" = Except.ok none :=
  C3_missing_markup_raises pageNoStatus "A" (Or.inl (by decide))

/-! ## Claim C4 -/

/-- C4: counterexample to "a failure to deliver a notification is
logged only and never raised back into the cycle".  With an old status
present and different, the change notification raises; the exception
propagates out of the loop body: the store update for `A` is skipped
(store unchanged) and `B` is never processed. -/
theorem C4_counterexample :
    runItems false true [("A", envSendRaise), ("B", envFull)] [("A", false)] =
      ([("A", false)], [Event.notifyChange (appA true)], some PyExn.httpError) := by decide

/-- C4 (amended): for a successfully fetched item, when the change
notification does not raise (including the logged "channel not found"
path) the iteration completes and the store update happens; but when
the send raises (and the notify condition holds) the exception
propagates and the store update for that item is skipped. -/
theorem C4_send_failure_behavior (fresh send_errors : Bool) (store : Store)
    (app_id : String) (env : ItemEnv) (info : TestFlightApp)
    (hfetch : fetch_app_info env.fetch app_id = .ok (some info)) :
    (¬ env.infoSend = SendOutcome.raised →
      (processItem fresh send_errors store app_id env).2.2 = none ∧
      (processItem fresh send_errors store app_id env).1 = store_app_info store info) ∧
    (env.infoSend = SendOutcome.raised →
      (!fresh && pyNe info.is_full (was_full store app_id)) = true →
      (processItem fresh send_errors store app_id env).2.2 = some PyExn.httpError ∧
      (processItem fresh send_errors store app_id env).1 = store) := by
  constructor
  · intro hs
    simp only [processItem, hfetch]
    by_cases hc : (!fresh && pyNe info.is_full (was_full store app_id)) = true
    · rw [if_pos hc]
      cases he : env.infoSend with
      | raised => exact absurd he hs
      | channelNone => simp [send_info]
      | delivered => simp [send_info]
    · rw [if_neg hc]
      exact ⟨rfl, rfl⟩
  · intro hs hc
    simp only [processItem, hfetch]
    rw [if_pos hc, hs]
    simp [send_info]

/-- Witness for C4's amended theorem at a concrete input. -/
theorem C4_send_failure_behavior_witness :
    (processItem false true [("A", false)] "A" envFull).2.2 = none ∧
    (processItem false true [("A", false)] "A" envFull).1 =
      store_app_info [("A", false)] (appA true) :=
  (C4_send_failure_behavior false true [("A", false)] "A" envFull (appA true)
    (by decide)).1 (by decide)

/-! ## Claim C5 -/

/-- C5: counterexample to "add with input https://example.com/join/abc123
yields watched id abc123".  The command requires `parts[2]` to be
exactly `testflight.apple.com`, so that input is rejected with
"Invalid URL" and the watched set stays empty. -/
theorem C5_counterexample :
    add_testflight ⟨false, [], []⟩ "https://example.com/join/abc123"
        (.response 200 pageFull) =
      ⟨⟨false, [], []⟩, [], some AddReply.invalidUrl, none⟩ := by decide

/-- C5 (amended): the add command accepts a raw id unchanged; a URL
input is accepted only when its host part is exactly
`testflight.apple.com` and its next segment is `join`, extracting the
id — `https://testflight.apple.com/join/abc123` yields `abc123`, while
`https://example.com/join/abc123` and `https://wrong-host.com/join/abc123`
are both rejected as Invalid URL; every input parsed as Invalid URL
gets the "Invalid URL" reply and leaves the state unchanged. -/
theorem C5_url_parsing (st : ModuleState) (out : FetchOutcome) :
    parse_app_id_arg "https://testflight.apple.com/join/abc123" = IdParse.ok "abc123" ∧
    parse_app_id_arg "https://example.com/join/abc123" = IdParse.invalidUrl ∧
    parse_app_id_arg "https://wrong-host.com/join/abc123" = IdParse.invalidUrl ∧
    (∀ raw, (isPre "https://".toList raw.toList || isPre "http://".toList raw.toList) = false →
      parse_app_id_arg raw = IdParse.ok raw) ∧
    (∀ raw, parse_app_id_arg raw = IdParse.invalidUrl →
      (add_testflight st raw out).state = st ∧
      (add_testflight st raw out).reply = some AddReply.invalidUrl) := by
  refine ⟨by decide, by decide, by decide, ?_, ?_⟩
  · intro raw h
    unfold parse_app_id_arg
    rw [h]
    simp
  · intro raw h
    simp [add_testflight, h]

/-- Witness for C5's amended theorem at a concrete input. -/
theorem C5_url_parsing_witness :
    (add_testflight ⟨false, ["x"], [("x", true)]⟩ "https://wrong-host.com/join/abc123"
        (.response 200 pageFull)).state = ⟨false, ["x"], [("x", true)]⟩ ∧
    (add_testflight ⟨false, ["x"], [("x", true)]⟩ "https://wrong-host.com/join/abc123"
        (.response 200 pageFull)).reply = some AddReply.invalidUrl :=
  (C5_url_parsing ⟨false, ["x"], [("x", true)]⟩ (.response 200 pageFull)).2.2.2.2
    "https://wrong-host.com/join/abc123" (by decide)

/-! ## Claim C6 -/

/-- C6: counterexample to "a transport error produces a FetchError for
that id and the cycle proceeds to the next id".  A transport error 
raises out of `fetch_app_info`; the cycle aborts with the exception, no
error notification happens, and the second id is never processed. -/
theorem C6_counterexample :
    runItems false true
        [("A", ⟨FetchOutcome.transportError, .delivered, .delivered⟩), ("B", envFull)]
        [("B", false)] =
      ([("B", false)], [], some PyExn.transportError) := by decide

/-- C6 (amended): a non-2xx response yields the `None` FetchError
result: the store is left unchanged, an error notification is sent
exactly when error notifications are enabled, and (when that
notification does not itself raise) the iteration completes so the
cycle proceeds; a transport error instead raises an exception that
aborts the iteration, also leaving the store unchanged. -/
theorem C6_fetch_failure_behavior (fresh send_errors : Bool) (store : Store)
    (app_id : String) (status : Nat) (page : Page) (errS infoS : SendOutcome)
    (hstatus : ¬ status = 200) :
    fetch_app_info (FetchOutcome.response status page) app_id = Except.ok none ∧
    (processItem fresh send_errors store app_id
      ⟨FetchOutcome.response status page, errS, infoS⟩).1 = store ∧
    (processItem fresh send_errors store app_id
      ⟨FetchOutcome.response status page, errS, infoS⟩).2.1 =
      (if send_errors then [Event.notifyError app_id] else []) ∧
    (¬ errS = SendOutcome.raised →
      (processItem fresh send_errors store app_id
        ⟨FetchOutcome.response status page, errS, infoS⟩).2.2 = none) ∧
    processItem fresh send_errors store app_id
      ⟨FetchOutcome.transportError, errS, infoS⟩ =
      (store, [], some PyExn.transportError) := by
  have hf : fetch_app_info (FetchOutcome.response status page) app_id = Except.ok none := by
    simp [fetch_app_info, hstatus]
  refine ⟨hf, ?_, ?_, ?_, ?_⟩
  · simp only [processItem, hf]
    cases send_errors <;> cases errS <;> simp [send_error]
  · simp only [processItem, hf]
    cases send_errors <;> cases errS <;> simp [send_error]
  · intro hs
    simp only [processItem, hf]
    cases send_errors <;> cases errS <;> simp_all [send_error]
  · simp [processItem, fetch_app_info]

/-- Witness for C6's amended theorem at a concrete input. -/
theorem C6_fetch_failure_behavior_witness :
    fetch_app_info (FetchOutcome.response 404 pageFull) "A" = Except.ok none ∧
    (processItem false true [("A", true)] "A"
      ⟨FetchOutcome.response 404 pageFull, .delivered, .delivered⟩).1 = [("A", true)] ∧
    (processItem false true [("A", true)] "A"
      ⟨FetchOutcome.response 404 pageFull, .delivered, .delivered⟩).2.2 = none := by
  have h := C6_fetch_failure_behavior false true [("A", true)] "A" 404 pageFull
    .delivered .delivered (by decide)
  exact ⟨h.1, h.2.1, h.2.2.2.1 (by decide)⟩

/-! ## Claim C10 -/

/-- C10: whenever `add_testflight` succeeds (replies "Watching ..."),
the fetched status was written to the store (`store_app_info`) strictly
before the id was appended to the watched list — the event trace is
exactly `[put, append]` — and in the resulting state the store holds a
status for the id, which the next polling cycle will read as the old
status. -/
theorem C10_add_put_before_append (st : ModuleState) (raw : String)
    (out : FetchOutcome) (nm : String)
    (h : (add_testflight st raw out).reply = some (AddReply.watching nm)) :
    ∃ app_id info,
      parse_app_id_arg raw = IdParse.ok app_id ∧
      fetch_app_info out app_id = Except.ok (some info) ∧
      (add_testflight st raw out).events =
        [AddEvent.put app_id info.is_full, AddEvent.append app_id] ∧
      was_full (add_testflight st raw out).state.store app_id = some info.is_full ∧
      (add_testflight st raw out).state.watched = st.watched ++ [app_id] := by
  cases hp : parse_app_id_arg raw with
  | invalidUrl => simp [add_testflight, hp] at h
  | indexError => simp [add_testflight, hp] at h
  | ok app_id =>
    cases hw : st.watched.contains app_id with
    | true =>
      have hw2 : app_id ∈ st.watched := by simpa using hw
      simp [add_testflight, hp, hw2] at h
    | false =>
      have hw2 : ¬ app_id ∈ st.watched := by simpa using hw
      cases hf : fetch_app_info out app_id with
      | error e => simp [add_testflight, hp, hw2, hf] at h
      | ok o =>
        cases o with
        | none => simp [add_testflight, hp, hw2, hf] at h
        | some info =>
          have hid : info.id = app_id := fetch_app_info_id out app_id info hf
          refine ⟨app_id, info, rfl, hf, ?_, ?_, ?_⟩
          · simp [add_testflight, hp, hw2, hf, hid]
          · have hwf := was_full_store_app_info st.store info
            rw [hid] at hwf
            simpa [add_testflight, hp, hw2, hf] using hwf
          · simp [add_testflight, hp, hw2, hf]

/-- Witness for C10 at a concrete input. -/
theorem C10_add_put_before_append_witness :
    ∃ app_id info,
      parse_app_id_arg "https://testflight.apple.com/join/abc123" = IdParse.ok app_id ∧
      fetch_app_info (FetchOutcome.response 200 pageFull) app_id = Except.ok (some info) ∧
      (add_testflight ⟨false, [], []⟩ "https://testflight.apple.com/join/abc123"
          (FetchOutcome.response 200 pageFull)).events =
        [AddEvent.put app_id info.is_full, AddEvent.append app_id] ∧
      was_full (add_testflight ⟨false, [], []⟩ "https://testflight.apple.com/join/abc123"
          (FetchOutcome.response 200 pageFull)).state.store app_id = some info.is_full ∧
      (add_testflight ⟨false, [], []⟩ "https://testflight.apple.com/join/abc123"
          (FetchOutcome.response 200 pageFull)).state.watched = [] ++ [app_id] :=
  C10_add_put_before_append ⟨false, [], []⟩ "https://testflight.apple.com/join/abc123"
    (FetchOutcome.response 200 pageFull) "CoolApp beta" (by decide)
